import Mathlib

/-!
Verification of the toado query-construction and data-access layer.

The definitions below are a shallow embedding of the repository's Rust
source (`src/lib.rs`, `src/queries.rs`, `src/queries/tasks.rs`,
`src/queries/projects.rs`).  Rust machine integers are modelled as
`Nat`/`Int`, `Option` as `Option`, `String` formatting as explicit
string concatenation, and each `fmt::Display` implementation as a
`...String` function.  The storage engine (SQLite via rusqlite) is not
part of the repository; where a claim depends on its behaviour, the
engine is modelled from the specification and the model is marked
`Modelled from the spec:` in its doc comment.
-/

namespace Toado

/-- Embeds enum `Tables` (lib.rs:250-257). -/
inductive Tables where
  | tasks
  | projects
  | taskAssignments
deriving DecidableEq

/-- Embeds `impl fmt::Display for Tables` (lib.rs:259-271). -/
def Tables.toString : Tables → String
  | .tasks => "tasks"
  | .projects => "projects"
  | .taskAssignments => "task_assignments"

/-- Embeds enum `ItemStatus` (lib.rs:449-453). -/
inductive ItemStatus where
  | incomplete
  | complete
  | archived
deriving DecidableEq

/-- Embeds `impl fmt::Display for ItemStatus` (lib.rs:455-467). -/
def ItemStatus.toString : ItemStatus → String
  | .incomplete => "incomplete"
  | .complete => "complete"
  | .archived => "archived"

instance : ToString ItemStatus := ⟨ItemStatus.toString⟩

/-- Embeds `impl From<ItemStatus> for u32` (lib.rs:470-478). -/
def ItemStatus.toCode : ItemStatus → Nat
  | .incomplete => 0
  | .complete => 1
  | .archived => 2

/-- Embeds `impl From<i64> for ItemStatus` (lib.rs:481-490).  The Rust
`match` on the integer value is a chain of equality tests with a
wildcard arm. -/
def ItemStatus.fromI64 (value : Int) : ItemStatus :=
  if value = 0 then .incomplete
  else if value = 1 then .complete
  else if value = 3 then .archived
  else .archived

/-- Embeds enum `QueryConditions` (queries.rs:394-408, identical copy in
lib.rs:293-306).  The Rust type is generic over a `Display` value type;
values are embedded by their rendered strings. -/
inductive QueryConditions where
  | Equal (col value : String)
  | NotEqual (col value : String)
  | GreaterThan (col value : String)
  | LessThan (col value : String)
  | GreaterThanOrEqual (col value : String)
  | LessThanOrEqual (col value : String)
  | Between (col : String) (low high : String)
  | Like (col value : String)
  | In (col : String) (values : List String)
deriving DecidableEq

/-- Embeds `impl fmt::Display for QueryConditions` (queries.rs:411-441). -/
def QueryConditions.toString : QueryConditions → String
  | .Equal col value => col ++ " = " ++ value
  | .NotEqual col value => col ++ " != " ++ value
  | .GreaterThan col value => col ++ " > " ++ value
  | .LessThan col value => col ++ " < " ++ value
  | .GreaterThanOrEqual col value => col ++ " >= " ++ value
  | .LessThanOrEqual col value => col ++ " <= " ++ value
  | .Between col low high => col ++ " BETWEEN " ++ low ++ " AND " ++ high
  | .Like col value => col ++ " LIKE " ++ value
  | .In col values => col ++ " IN (" ++ String.intercalate ", " values ++ ")"

/-- Embeds enum `UpdateAction<T>` (queries.rs:226-237). -/
inductive UpdateAction (T : Type) where
  | some (value : T)
  | null
  | none
deriving DecidableEq

/-- Embeds `UpdateAction::map` (queries.rs:244-254). -/
def UpdateAction.map {T U : Type} (f : T → U) : UpdateAction T → UpdateAction U
  | .some value => .some (f value)
  | .null => .null
  | .none => .none

/-- Embeds `UpdateAction::map_from` (queries.rs:256-266). -/
def UpdateAction.map_from {T U : Type} (from_ : UpdateAction T) (f : T → U) :
    UpdateAction U :=
  match from_ with
  | .some x => .some (f x)
  | .none => .none
  | .null => .null

/-- Embeds `UpdateAction::is_none` (queries.rs:268-271). -/
def UpdateAction.is_none {T : Type} : UpdateAction T → Bool
  | .none => true
  | _ => false

/-- Embeds `UpdateAction::to_statment` (queries.rs:272-280); the Rust
`Display` bound on `T` appears as a `ToString` instance. -/
def UpdateAction.to_statment {T : Type} [ToString T]
    (a : UpdateAction T) (col : String) : String :=
  match a with
  | .some value => col ++ " = '" ++ toString value ++ "'"
  | .null => col ++ " = NULL"
  | .none => ""

/-- Embeds `impl From<String> for UpdateAction<String>` (queries.rs:295-303). -/
def UpdateAction.fromString (value : String) : UpdateAction String :=
  if value.isEmpty then .null else .some value

/-- Embeds enum `OrderBy` (queries.rs:327-335). -/
inductive OrderBy where
  | id
  | name
  | priority
deriving DecidableEq

/-- Embeds `impl fmt::Display for OrderBy` (queries.rs:337-351). -/
def OrderBy.toString : OrderBy → String
  | .id => "id"
  | .name => "name"
  | .priority => "priority"

/-- Embeds enum `OrderDir` (queries.rs:356-360). -/
inductive OrderDir where
  | asc
  | desc
deriving DecidableEq

/-- Embeds `impl fmt::Display for OrderDir` (queries.rs:362-373). -/
def OrderDir.toString : OrderDir → String
  | .asc => "ASC"
  | .desc => "DESC"

/-- Embeds enum `RowLimit` (queries.rs:375-381). -/
inductive RowLimit where
  | limit (n : Nat)
  | all
deriving DecidableEq

/-- Embeds enum `QueryCols` (queries.rs:203-209). -/
inductive QueryCols where
  | all
  | some (cols : List String)
deriving DecidableEq

/-- Embeds `impl fmt::Display for QueryCols` (queries.rs:212-223). -/
def QueryCols.toString : QueryCols → String
  | .all => "*"
  | .some cols => String.intercalate ", " cols

/-- Embeds `quote_string` (queries.rs:444-446). -/
def quote_string (str : String) : String := "'" ++ str ++ "'"

/-- Embeds `KeyValuePairs` (queries.rs:383): a vector of
(column name, rendered value) pairs. -/
abbrev KeyValuePairs := List (String × String)

/-- Embeds `KeyValuePairs::push_pairs_if_some` (queries.rs:386-391). -/
def push_pairs_if_some (pairs : KeyValuePairs) (key : String)
    (value : Option String) : KeyValuePairs :=
  match value with
  | Option.some v => pairs ++ [(key, v)]
  | Option.none => pairs

/-- Embeds `AddQuery::get_key_value_strings` (queries.rs:28-33). -/
def get_key_value_strings (pairs : KeyValuePairs) : String × String :=
  (String.intercalate ", " (pairs.map (fun p => p.1)),
   String.intercalate ", " (pairs.map (fun p => quote_string p.2)))

/-- Embeds `AddQuery::build_query_string` (queries.rs:36-42). -/
def addBuildQueryString (table : Tables) (pairs : KeyValuePairs) : String :=
  "INSERT INTO " ++ table.toString ++ "(" ++ (get_key_value_strings pairs).1 ++
    ") VALUES(" ++ (get_key_value_strings pairs).2 ++ ");"

/-- Embeds `DeleteQuery::build_query_string` (queries.rs:71-81): base
deletion text, then either a `WHERE` clause terminated by `;` or a lone
`;` when the condition is absent. -/
def deleteBuildQueryString (table : Tables) (condition : Option String) : String :=
  let query_string := "DELETE FROM " ++ table.toString
  match condition with
  | Option.some c => query_string ++ (" WHERE " ++ c ++ ";")
  | Option.none => query_string ++ ";"

/-- Embeds `UpdateCols` (queries.rs:306-308). -/
structure UpdateCols (T : Type) where
  pairs : List (String × UpdateAction T)

/-- Embeds `impl fmt::Display for UpdateCols` (queries.rs:310-324). -/
def UpdateCols.fmtString {T : Type} [ToString T] (u : UpdateCols T) : String :=
  String.intercalate ", "
    (((u.pairs.filter (fun col => !col.2.is_none)).map
      (fun col => col.2.to_statment col.1)))

/-- Embeds `UpdateQuery::build_query_string` (queries.rs:52-62). -/
def updateBuildQueryString {T : Type} [ToString T] (table : Tables)
    (update_cols : UpdateCols T) (condition : Option String) : String :=
  let query_string := "UPDATE " ++ table.toString ++ " SET " ++ update_cols.fmtString
  match condition with
  | Option.some c => query_string ++ (" WHERE " ++ c ++ ";")
  | Option.none => query_string ++ ";"

/-- Embeds `UpdateTaskCols` (queries/tasks.rs:102-117); the Rust field
`repeat` is a Lean keyword and is embedded as `repeat_`. -/
structure UpdateTaskCols where
  name : UpdateAction String
  priority : UpdateAction Nat
  status : UpdateAction ItemStatus
  start_time : UpdateAction String
  end_time : UpdateAction String
  repeat_ : UpdateAction String
  notes : UpdateAction String

/-- Embeds `UpdateTaskCols::status` (queries/tasks.rs:142-152). -/
def UpdateTaskCols.statusOnly (status : ItemStatus) : UpdateTaskCols :=
  { name := .none, priority := .none, status := .some status,
    start_time := .none, end_time := .none, repeat_ := .none, notes := .none }

/-- Embeds the local helper `push_action` inside
`UpdateTaskCols::fmt` (queries/tasks.rs:158-171). -/
def push_action {T : Type} [ToString T] (actions : List String)
    (action : UpdateAction T) (col : String) : List String :=
  if !action.is_none then actions ++ [action.to_statment col] else actions

/-- Embeds `impl fmt::Display for UpdateTaskCols` (queries/tasks.rs:155-189):
pushes each non-`None` action in field order (the status action is first
mapped through the enum-to-int conversion) and joins with `","`. -/
def UpdateTaskCols.fmtString (u : UpdateTaskCols) : String :=
  let actions : List String := []
  let actions := push_action actions u.name "name"
  let actions := push_action actions u.priority "priority"
  let actions := push_action actions
    (UpdateAction.map_from u.status (fun val => val.toCode)) "status"
  let actions := push_action actions u.start_time "start_time"
  let actions := push_action actions u.end_time "end_time"
  let actions := push_action actions u.repeat_ "repeat"
  let actions := push_action actions u.notes "notes"
  String.intercalate "," actions

/-- Embeds `UpdateTaskQuery` (queries/tasks.rs:73-76). -/
structure UpdateTaskQuery where
  update : UpdateTaskCols
  condition : Option String

/-- Embeds `impl fmt::Display for UpdateTaskQuery` (queries/tasks.rs:84-99):
builds `UPDATE tasks SET ...`, appends ` WHERE ...` when a condition is
present, pushes `';'`, and then the final `write!` appends a second
`';'`. -/
def UpdateTaskQuery.fmtString (q : UpdateTaskQuery) : String :=
  let query_string := "UPDATE " ++ Tables.tasks.toString ++ " SET " ++
    q.update.fmtString
  let query_string :=
    match q.condition with
    | Option.some c => query_string ++ (" WHERE " ++ c)
    | Option.none => query_string
  let query_string := query_string ++ ";"
  query_string ++ ";"

/-- Embeds `SelectQuery::append_filters` (queries.rs:102-158): appends
the optional `WHERE` clause, the resolved `ORDER BY` clause, the
`LIMIT` clause per the row-limit cases, the `OFFSET` clause when the
limit is absent or a numeric limit, and the terminating `;`. -/
def appendFilters (query_string : String) (condition : Option String)
    (order_by : Option OrderBy) (order_by_default : OrderBy)
    (order_dir : Option OrderDir) (limit : Option RowLimit)
    (offset : Option Nat) : String :=
  let query_string :=
    match condition with
    | Option.some c => query_string ++ (" WHERE " ++ c)
    | Option.none => query_string
  let order_by := order_by.getD order_by_default
  let dir : OrderDir :=
    match order_dir with
    | Option.some dir => dir
    | Option.none =>
      match order_by with
      | OrderBy.priority => OrderDir.desc
      | _ => OrderDir.asc
  let query_string := query_string ++
    (" ORDER BY " ++ order_by.toString ++ " " ++ dir.toString)
  let query_string :=
    match limit with
    | Option.some (RowLimit.limit n) => query_string ++ (" LIMIT " ++ Nat.repr n)
    | Option.some RowLimit.all => query_string
    | Option.none => query_string ++ " LIMIT 10"
  let query_string :=
    if limit.isNone ||
        (match limit with
         | Option.some l => !(match l with | RowLimit.all => true | _ => false)
         | Option.none => false) then
      match offset with
      | Option.some o => query_string ++ (" OFFSET " ++ Nat.repr o)
      | Option.none => query_string
    else query_string
  query_string ++ ";"

/-- Embeds `SelectTasksQuery` (queries/tasks.rs:228-235). -/
structure SelectTasksQuery where
  cols : QueryCols
  condition : Option String
  order_by : Option OrderBy
  order_dir : Option OrderDir
  limit : Option RowLimit
  offset : Option Nat

/-- Embeds `SelectQuery::build_query_string` (queries.rs:161-164) for
`SelectTasksQuery`, whose `query_filters` (queries/tasks.rs:264-273)
passes `OrderBy::Priority` as the default order column. -/
def SelectTasksQuery.build_query_string (q : SelectTasksQuery) : String :=
  appendFilters ("SELECT " ++ q.cols.toString ++ " FROM " ++ Tables.tasks.toString)
    q.condition q.order_by OrderBy.priority q.order_dir q.limit q.offset

/-- Embeds `SelectProjectsQuery` (queries/projects.rs:97-104). -/
structure SelectProjectsQuery where
  cols : QueryCols
  condition : Option String
  order_by : Option OrderBy
  order_dir : Option OrderDir
  limit : Option RowLimit
  offset : Option Nat

/-- Embeds `SelectQuery::build_query_string` (queries.rs:161-164) for
`SelectProjectsQuery`, whose `query_filters` (queries/projects.rs:133-142)
passes `OrderBy::Name` as the default order column. -/
def SelectProjectsQuery.build_query_string (q : SelectProjectsQuery) : String :=
  appendFilters ("SELECT " ++ q.cols.toString ++ " FROM " ++ Tables.projects.toString)
    q.condition q.order_by OrderBy.name q.order_dir q.limit q.offset

--
-- Decomposition of the rendered select statement into its clauses.
-- These are restatements of the corresponding pieces of
-- `SelectQuery::append_filters`, used to characterise its output.
--

/-- The `WHERE` fragment appended by `append_filters` (queries.rs:109-112). -/
def whereFragment (condition : Option String) : String :=
  match condition with
  | Option.some c => " WHERE " ++ c
  | Option.none => ""

/-- The resolved order column of `append_filters` (queries.rs:119). -/
def resolveOrderBy (order_by : Option OrderBy) (order_by_default : OrderBy) :
    OrderBy :=
  order_by.getD order_by_default

/-- The resolved order direction of `append_filters` (queries.rs:124-131). -/
def resolveOrderDir (order_dir : Option OrderDir) (order_by : OrderBy) :
    OrderDir :=
  match order_dir with
  | Option.some dir => dir
  | Option.none =>
    match order_by with
    | OrderBy.priority => OrderDir.desc
    | _ => OrderDir.asc

/-- The `ORDER BY` fragment appended by `append_filters` (queries.rs:121-132). -/
def orderFragment (order_by : Option OrderBy) (order_by_default : OrderBy)
    (order_dir : Option OrderDir) : String :=
  " ORDER BY " ++ (resolveOrderBy order_by order_by_default).toString ++ " " ++
    (resolveOrderDir order_dir (resolveOrderBy order_by order_by_default)).toString

/-- The `LIMIT` fragment appended by `append_filters` (queries.rs:137-141). -/
def limitFragment (limit : Option RowLimit) : String :=
  match limit with
  | Option.some (RowLimit.limit n) => " LIMIT " ++ Nat.repr n
  | Option.some RowLimit.all => ""
  | Option.none => " LIMIT 10"

/-- The `OFFSET` fragment appended by `append_filters` (queries.rs:146-154). -/
def offsetFragment (limit : Option RowLimit) (offset : Option Nat) : String :=
  match limit, offset with
  | Option.some RowLimit.all, _ => ""
  | _, Option.some o => " OFFSET " ++ Nat.repr o
  | _, Option.none => ""

/-- Factorisation of `append_filters` into its clause fragments. -/
theorem appendFilters_eq (base : String) (condition : Option String)
    (order_by : Option OrderBy) (order_by_default : OrderBy)
    (order_dir : Option OrderDir) (limit : Option RowLimit)
    (offset : Option Nat) :
    appendFilters base condition order_by order_by_default order_dir limit
        offset =
      base ++ whereFragment condition ++
        orderFragment order_by order_by_default order_dir ++
        limitFragment limit ++ offsetFragment limit offset ++ ";" := by
  unfold appendFilters whereFragment orderFragment resolveOrderBy
    resolveOrderDir limitFragment offsetFragment
  cases condition <;> cases order_dir <;>
    rcases limit with _ | l <;> try cases l
  all_goals cases offset <;>
    simp [Option.getD, String.append_assoc, String.append_empty]

/-- Unfolding of `push_action`: it appends the rendered statement when
the action is not `None` and leaves the list unchanged otherwise. -/
theorem push_action_eq {T : Type} [ToString T] (actions : List String)
    (action : UpdateAction T) (col : String) :
    push_action actions action col =
      actions ++ if action.is_none then [] else [action.to_statment col] := by
  unfold push_action
  cases action <;> simp [UpdateAction.is_none]

/-- The field order of `UpdateTaskCols::fmt` (queries/tasks.rs:173-185),
with the priority and status actions carried over to their rendered
(decimal string) values. -/
def taskColsPairs (u : UpdateTaskCols) : List (String × UpdateAction String) :=
  [("name", u.name),
   ("priority", u.priority.map Nat.repr),
   ("status", (UpdateAction.map_from u.status (fun val => val.toCode)).map Nat.repr),
   ("start_time", u.start_time),
   ("end_time", u.end_time),
   ("repeat", u.repeat_),
   ("notes", u.notes)]

/-- Mapping the carried value of an update action does not change
whether the action is `None`. -/
theorem UpdateAction.is_none_map {T U : Type} (f : T → U) (a : UpdateAction T) :
    (a.map f).is_none = a.is_none := by
  cases a <;> rfl

/-- Rendering a numeric update action is unchanged by first carrying the
value over to its decimal string. -/
theorem UpdateAction.to_statment_map_repr (a : UpdateAction Nat) (col : String) :
    (a.map Nat.repr).to_statment col = a.to_statment col := by
  cases a <;> rfl

/-- One step of the filter-then-render pipeline over column/action pairs. -/
theorem filter_map_statment_cons (c : String × UpdateAction String)
    (l : List (String × UpdateAction String)) :
    ((c :: l).filter (fun col => !col.2.is_none)).map
        (fun col => col.2.to_statment col.1) =
      (if c.2.is_none then [] else [c.2.to_statment c.1]) ++
        (l.filter (fun col => !col.2.is_none)).map
          (fun col => col.2.to_statment col.1) := by
  cases h : c.2.is_none <;> simp [List.filter_cons, h]

--
-- Server facade (lib.rs) and the modelled storage engine.
--

/-- Embeds struct `AddTaskArgs` (lib.rs:431-446); the Rust field
`repeat` is a Lean keyword and is embedded as `repeat_`. -/
structure AddTaskArgs where
  name : String
  priority : Nat
  status : ItemStatus
  start_time : Option String
  end_time : Option String
  repeat_ : Option String
  notes : Option String

/-- Embeds the column/value map construction of `Server::add_task`
(lib.rs:73-93) as an association list (the Rust `HashMap` only matters
as a finite map here): name, priority and the status integer code are
always present, the optional fields only when supplied.  The source
inserts the notes value under the misspelled key `"repeate"`
(lib.rs:92); the embedding keeps that faithfully. -/
def addTaskMap (args : AddTaskArgs) : List (String × String) :=
  let map := [("name", args.name), ("priority", Nat.repr args.priority),
    ("status", Nat.repr args.status.toCode)]
  let map :=
    match args.start_time with
    | Option.some v => map ++ [("start_time", v)]
    | Option.none => map
  let map :=
    match args.end_time with
    | Option.some v => map ++ [("end_time", v)]
    | Option.none => map
  let map :=
    match args.repeat_ with
    | Option.some v => map ++ [("repeat", v)]
    | Option.none => map
  let map :=
    match args.notes with
    | Option.some v => map ++ [("repeate", v)]
    | Option.none => map
  map

/-- Embeds `str::trim` (used by `Server::add_task`, lib.rs:97): removes
leading and trailing whitespace. -/
def trimString (s : String) : String :=
  ⟨(((s.data.dropWhile Char.isWhitespace).reverse.dropWhile
      Char.isWhitespace).reverse)⟩

/-- The numeric value of a decimal digit character, `none` for any
other character. -/
def digitVal (c : Char) : Option Nat :=
  if c.isDigit then Option.some (c.toNat - '0'.toNat) else Option.none

/-- Parses a non-empty all-digit character list as a natural number. -/
def parseNatChars : List Char → Nat → Option Nat
  | [], acc => Option.some acc
  | c :: cs, acc =>
    match digitVal c with
    | Option.some d => parseNatChars cs (acc * 10 + d)
    | Option.none => Option.none

/-- Decodes a stored column text as an unsigned integer (models the
numeric decode behind `rusqlite::Row::get::<u64>`). -/
def strToNat (s : String) : Option Nat :=
  match s.data with
  | [] => Option.none
  | cs => parseNatChars cs 0

/-- Decodes a stored column text as a signed 64-bit integer (models the
numeric decode behind `rusqlite::Row::get::<i64>`). -/
def strToInt (s : String) : Option Int :=
  match s.data with
  | '-' :: c :: cs =>
    match parseNatChars (c :: cs) 0 with
    | Option.some n => Option.some (-(n : Int))
    | Option.none => Option.none
  | _ => (strToNat s).map (fun n => (n : Int))

/-- Embeds the value-quoting step of `Server::add_task` (lib.rs:95-98):
each value is trimmed and surrounded with single quotes. -/
def addTaskQuotedPairs (args : AddTaskArgs) : List (String × String) :=
  (addTaskMap args).map (fun p => (p.1, "'" ++ trimString p.2 ++ "'"))

/-- A stored row of the `tasks` table: the store-generated identifier
and the stored column values. -/
structure TaskRow where
  id : Int
  cols : List (String × String)

/-- The modelled store state for the `tasks` table: the next identifier
the store will generate and the stored rows. -/
structure Db where
  nextId : Int
  rows : List TaskRow

/-- Modelled from the spec: the storage engine (rusqlite/SQLite, an
external collaborator not under src/) parses a single-quoted SQL string
literal back to its contents when storing it. -/
def unquoteValue (s : String) : String := (s.drop 1).dropRight 1

/-- Modelled from the spec: executing a rendered
`INSERT INTO tasks(...) VALUES(...)` statement against the store.  Per
the spec, identifiers are store-generated and monotonic; the store
records the inserted column values and `last_insert_rowid` reports the
generated identifier. -/
def dbInsertTask (db : Db) (pairs : List (String × String)) : Int × Db :=
  (db.nextId,
   { nextId := db.nextId + 1,
     rows := db.rows ++
       [{ id := db.nextId,
          cols := pairs.map (fun p => (p.1, unquoteValue p.2)) }] })

/-- Embeds `Server::add_task` (lib.rs:72-109) over the modelled store:
builds the column/value map, renders the quoted values, executes the
insertion and returns `last_insert_rowid`. -/
def Server.add_task (db : Db) (args : AddTaskArgs) : Int × Db :=
  dbInsertTask db (addTaskQuotedPairs args)

/-- Looks up a stored column value by name (models
`rusqlite::Row::get` for a text column over the modelled row). -/
def rowGet (cols : List (String × String)) (col : String) : Option String :=
  (cols.find? (fun p => p.1 == col)).map (fun p => p.2)

/-- Looks up a stored column value and decodes it as a 64-bit integer
(models `rusqlite::Row::get::<i64>`; a missing column or a value that
is not an integer decodes to `none`). -/
def rowGetInt (cols : List (String × String)) (col : String) : Option Int :=
  (rowGet cols col).bind strToInt

/-- Looks up a stored column value and decodes it as an unsigned
integer (models `rusqlite::Row::get::<u64>`). -/
def rowGetNat (cols : List (String × String)) (col : String) : Option Nat :=
  (rowGet cols col).bind strToNat

/-- Embeds struct `Task` (lib.rs:410-428); every field is optional. -/
structure Task where
  id : Option Int
  name : Option String
  priority : Option Nat
  status : Option ItemStatus
  start_time : Option String
  end_time : Option String
  repeat_ : Option String
  notes : Option String
  projects : Option (List String)
deriving DecidableEq

/-- Modelled from the spec: the store returns only the projected
columns of a row (`QueryCols::All` returns every column). -/
def projectCols : QueryCols → List (String × String) → List (String × String)
  | .all, cols => cols
  | .some cs, cols => cols.filter (fun p => cs.contains p.1)

/-- Whether the projection includes the `id` column. -/
def projectsId : QueryCols → Bool
  | .all => true
  | .some cs => cs.contains "id"

/-- Embeds the row-to-Task mapping of `Server::execute_select_tasks`
(lib.rs:159-175): each field is decoded from its column and left absent
when the column is missing or fails to decode; the status column is
decoded as an `i64` and converted through `ItemStatus::from`. -/
def taskFromRow (cols : QueryCols) (row : TaskRow) : Task :=
  let projected := projectCols cols row.cols
  { id := if projectsId cols then Option.some row.id else Option.none,
    name := rowGet projected "name",
    priority := rowGetNat projected "priority",
    status := (rowGetInt projected "status").map ItemStatus.fromI64,
    start_time := rowGet projected "start_time",
    end_time := rowGet projected "end_time",
    repeat_ := rowGet projected "repeat",
    notes := rowGet projected "notes",
    projects := Option.none }

/-- Embeds enum `QueryOperators` (lib.rs:342-345). -/
inductive QueryOperators where
  | and
  | or
deriving DecidableEq

/-- Embeds `impl fmt::Display for QueryOperators` (lib.rs:348-359). -/
def QueryOperators.toString : QueryOperators → String
  | .and => "AND"
  | .or => "OR"

/-- Embeds enum `OrderBy` of the facade generation (lib.rs:362-369),
which has five variants; named `OrderByLib` here because `OrderBy`
embeds the queries.rs copy. -/
inductive OrderByLib where
  | id
  | name
  | priority
  | startDate
  | endDate
deriving DecidableEq

/-- Embeds `impl fmt::Display for OrderBy` (lib.rs:371-385). -/
def OrderByLib.toString : OrderByLib → String
  | .id => "id"
  | .name => "name"
  | .priority => "priority"
  | .startDate => "start_date"
  | .endDate => "end_date"

/-- Embeds the facade generation's private `SelectTasksQuery` struct
(lib.rs:182-187); named `SelectTasksQueryLib` here because
`SelectTasksQuery` embeds the queries/tasks.rs builder.  Conditions are
a vector of (condition, optional boolean operator) pairs; the
projection type `SelectCols` (lib.rs:274-290) is textually identical to
`QueryCols` and is embedded by it.  The facade's `OrderDir`
(lib.rs:390-407) is identical to the queries.rs copy already embedded. -/
structure SelectTasksQueryLib where
  cols : QueryCols
  conditions : Option (List (QueryConditions × Option QueryOperators))
  order_by : Option OrderByLib
  order_dir : Option OrderDir

/-- Embeds `impl fmt::Display for SelectTasksQuery` (lib.rs:205-246):
the select head, then — when conditions are present — the rendered
conditions joined by single spaces and appended directly to the query
string (the source pushes no ` WHERE ` and no separating space before
them), then the resolved `ORDER BY` clause and the terminating `;`. -/
def SelectTasksQueryLib.fmtString (q : SelectTasksQueryLib) : String :=
  let query_string :=
    "SELECT " ++ q.cols.toString ++ " FROM " ++ Tables.tasks.toString
  let query_string :=
    match q.conditions with
    | Option.some conditions =>
      query_string ++ String.intercalate " "
        (conditions.map (fun c =>
          c.1.toString ++
            match c.2 with
            | Option.some op => " " ++ op.toString
            | Option.none => ""))
    | Option.none => query_string
  let order_by := q.order_by.getD OrderByLib.priority
  let dir : OrderDir :=
    match q.order_dir with
    | Option.some dir => dir
    | Option.none =>
      match order_by with
      | OrderByLib.priority => OrderDir.desc
      | _ => OrderDir.asc
  query_string ++ (" ORDER BY " ++ order_by.toString ++ " " ++ dir.toString)
    ++ ";"

/-- Embeds `Server::select_tasks_condition` (lib.rs:134-150): wraps the
caller's projection, condition list and ordering into the facade
generation's select query, whose rendered text is the statement that
reaches the store (`execute_select_tasks`, lib.rs:157, prepares
`query.to_string()`). -/
def select_tasks_condition_query (cols : QueryCols)
    (conditions : List (QueryConditions × Option QueryOperators))
    (order_by : Option OrderByLib) (order_dir : Option OrderDir) : String :=
  SelectTasksQueryLib.fmtString
    { cols := cols, conditions := Option.some conditions,
      order_by := order_by, order_dir := order_dir }

/-- Embeds struct `AddTaskQuery` (queries/tasks.rs:10-17); the Rust
field `repeat` is a Lean keyword and is embedded as `repeat_`. -/
structure AddTaskQuery where
  name : String
  priority : Nat
  start_time : Option String
  end_time : Option String
  repeat_ : Option String
  notes : Option String

/-- Embeds `AddQuery::key_value_pairs` for `AddTaskQuery`
(queries/tasks.rs:45-60): the name, the priority decimal string, and
the status rendered through `ItemStatus::Incomplete`'s `Display` — the
word "incomplete", not its integer code — then the optional fields. -/
def AddTaskQuery.key_value_pairs (q : AddTaskQuery) : KeyValuePairs :=
  let pairs : KeyValuePairs :=
    [("name", q.name), ("priority", Nat.repr q.priority),
     ("status", ItemStatus.incomplete.toString)]
  let pairs := push_pairs_if_some pairs "start_time" q.start_time
  let pairs := push_pairs_if_some pairs "end_time" q.end_time
  let pairs := push_pairs_if_some pairs "repeat" q.repeat_
  let pairs := push_pairs_if_some pairs "notes" q.notes
  pairs

/-- Embeds `AddQuery::build_query_string` (queries.rs:36-42) for
`AddTaskQuery`, whose table is `tasks` (queries/tasks.rs:39-43). -/
def AddTaskQuery.build_query_string (q : AddTaskQuery) : String :=
  addBuildQueryString Tables.tasks q.key_value_pairs

/-- Spec-side predicate for C2: every per-column action of a task
update is Untouched (`None`). -/
def UpdateTaskCols.allNone (u : UpdateTaskCols) : Bool :=
  u.name.is_none && u.priority.is_none && u.status.is_none &&
    u.start_time.is_none && u.end_time.is_none && u.repeat_.is_none &&
    u.notes.is_none

/-- Modelled from the spec: `Server::update_task`, the facade's task
update operation.  The method called by the command layer
(`commands/tasks.rs:234`, `commands.rs:265`) is not present under src/
— only its callers and the query builders are.  Per the spec (§4.3,
§7, §8): an invocation in which every per-column action is Untouched is
a misuse and "must be rejected before reaching the store"; otherwise
the statement rendered by the task update query builder
(`UpdateTaskQuery`, queries/tasks.rs) is issued to the store.  The
success value carries the issued statement text. -/
def Server.update_task (condition : Option String) (update : UpdateTaskCols) :
    Except String String :=
  if update.allNone then
    Except.error "MisuseError: no update values provided"
  else
    Except.ok (UpdateTaskQuery.fmtString
      { update := update, condition := condition })

/-- If an update action reports `is_none`, it is the `None` action. -/
theorem UpdateAction.eq_none_of_is_none {T : Type} {a : UpdateAction T}
    (h : a.is_none = true) : a = UpdateAction.none := by
  cases a <;> simp [UpdateAction.is_none] at h ⊢

--
-- The modelled store for C6: tasks plus the task_assignments join
-- table.
--

/-- The modelled store state for C6: the `tasks` rows and the
`task_assignments` rows, an assignment being a (task id, project id)
pair. -/
structure DbFull where
  tasks : List TaskRow
  assignments : List (Int × Int)

/-- Modelled from the spec: executing a rendered `DELETE FROM tasks ...`
statement against the store with foreign-key enforcement ON and the
schema's `ON DELETE CASCADE` declarations (the engine is an external
collaborator).  Rows matching the deletion predicate are removed, and
the cascade removes every `task_assignments` row whose `task_id`
references a deleted task row.  An absent `WHERE` predicate matches
every row. -/
def dbDeleteTasks (pred : TaskRow → Bool) (db : DbFull) : DbFull :=
  { tasks := db.tasks.filter (fun r => !pred r),
    assignments := db.assignments.filter
      (fun a => !(db.tasks.any (fun r => pred r && r.id == a.1))) }

/-- A list-of-characters prefix test. -/
def listHasPrefix : List Char → List Char → Bool
  | [], _ => true
  | _ :: _, [] => false
  | p :: ps, c :: cs => p == c && listHasPrefix ps cs

/-- A list-of-characters substring test. -/
def listContainsSub (pat : List Char) : List Char → Bool
  | [] => listHasPrefix pat []
  | c :: rest => listHasPrefix pat (c :: rest) || listContainsSub pat rest

/-- String substring test built on `listContainsSub`. -/
def strContains (s pat : String) : Bool :=
  listContainsSub pat.data s.data

/-- Embeds the schema-initialization batch of `Server::init`
(lib.rs:35-66): the `format!` literal with the three table names
substituted. -/
def initSqlBatch : String :=
  "BEGIN;\n            PRAGMA foreign_keys = ON;\n            CREATE TABLE IF NOT EXISTS " ++
  Tables.tasks.toString ++
  "(\n                id INTEGER PRIMARY KEY AUTOINCREMENT NOT NULL,\n                name TEXT NOT NULL,\n                priority INTEGER NOT NULL,\n                status INTEGER NOT NULL,\n                start_time TEXT,\n                end_time TEXT,\n                repeat TEXT,\n                notes TEXT\n            );\n            CREATE TABLE IF NOT EXISTS " ++
  Tables.projects.toString ++
  "(\n                id INTEGER PRIMARY KEY AUTOINCREMENT NOT NULL,\n                name TEXT NOT NULL,\n                start_time TEXT NOT NULL,\n                end_time TEXT,\n                notes TEXT\n            );\n            CREATE TABLE IF NOT EXISTS " ++
  Tables.taskAssignments.toString ++
  "(\n                id INTEGER PRIMARY KEY AUTOINCREMENT NOT NULL,\n                task_id INTEGER NOT NULL,\n                project_id INTEGER NOT NULL,\n                FOREIGN KEY (task_id) REFERENCES tasks(id) ON DELETE CASCADE,\n                FOREIGN KEY (project_id) REFERENCES projects(id) ON DELETE CASCADE\n            );\n            COMMIT;"

/-- The concrete add-task arguments of the C1 round trip. -/
def buyMilkArgs : AddTaskArgs :=
  { name := "Buy milk", priority := 3, status := ItemStatus.incomplete,
    start_time := Option.none, end_time := Option.none,
    repeat_ := Option.none, notes := Option.none }

end Toado

--
-- Claims C8, C9, C10
--

namespace Toado

/-- C8: decoding a stored status code is total: code 0 decodes to
`Incomplete`, code 1 decodes to `Complete`, and every other 64-bit
integer code decodes to `Archived`. -/
theorem c8_status_decode_total (value : Int) :
    ItemStatus.fromI64 value =
      if value = 0 then ItemStatus.incomplete
      else if value = 1 then ItemStatus.complete
      else ItemStatus.archived := by
  unfold ItemStatus.fromI64
  by_cases h0 : value = 0 <;> by_cases h1 : value = 1 <;>
    by_cases h3 : value = 3 <;> simp [h0, h1, h3]

/-- C9: each predicate form renders to its one canonical textual
fragment over its column and value(s), with `In` values comma-separated
in list order. -/
theorem c9_condition_rendering :
    (∀ col v, QueryConditions.toString (.Equal col v) = col ++ " = " ++ v) ∧
    (∀ col v, QueryConditions.toString (.NotEqual col v) = col ++ " != " ++ v) ∧
    (∀ col v, QueryConditions.toString (.GreaterThan col v) = col ++ " > " ++ v) ∧
    (∀ col v, QueryConditions.toString (.LessThan col v) = col ++ " < " ++ v) ∧
    (∀ col v, QueryConditions.toString (.GreaterThanOrEqual col v) = col ++ " >= " ++ v) ∧
    (∀ col v, QueryConditions.toString (.LessThanOrEqual col v) = col ++ " <= " ++ v) ∧
    (∀ col low high,
      QueryConditions.toString (.Between col low high) =
        col ++ " BETWEEN " ++ low ++ " AND " ++ high) ∧
    (∀ col v, QueryConditions.toString (.Like col v) = col ++ " LIKE " ++ v) ∧
    (∀ col vs,
      QueryConditions.toString (.In col vs) =
        col ++ " IN (" ++ String.intercalate ", " vs ++ ")") := by
  refine ⟨?_, ?_, ?_, ?_, ?_, ?_, ?_, ?_, ?_⟩ <;> intros <;> rfl

/-- C10: converting an owned string into an update action maps the empty
string to the set-to-null action and every non-empty string to the
set-to-value action, and never yields the leave-untouched action. -/
theorem c10_string_to_update_action (s : String) :
    UpdateAction.fromString s =
      (if s = "" then UpdateAction.null else UpdateAction.some s) ∧
    (UpdateAction.fromString s).is_none = false := by
  constructor
  · unfold UpdateAction.fromString
    by_cases h : s = ""
    · simp [h, String.isEmpty_iff]
    · simp [h, String.isEmpty_iff]
  · unfold UpdateAction.fromString
    by_cases h : s.isEmpty <;> simp [h, UpdateAction.is_none]

/-- C3: a numeric row cap renders as `LIMIT n` with a supplied offset
rendered as `OFFSET`; the explicit all-rows cap renders no `LIMIT`
clause and ignores any supplied offset; an absent cap renders the
default `LIMIT 10` with a supplied offset still rendered. -/
theorem c3_row_cap_rendering (base : String) (condition : Option String)
    (order_by : Option OrderBy) (order_by_default : OrderBy)
    (order_dir : Option OrderDir) (offset : Option Nat) (n : Nat) :
    appendFilters base condition order_by order_by_default order_dir
        (Option.some (RowLimit.limit n)) offset =
      base ++ whereFragment condition ++
        orderFragment order_by order_by_default order_dir ++
        (" LIMIT " ++ Nat.repr n) ++
        (match offset with
         | Option.some o => " OFFSET " ++ Nat.repr o
         | Option.none => "") ++ ";" ∧
    appendFilters base condition order_by order_by_default order_dir
        (Option.some RowLimit.all) offset =
      base ++ whereFragment condition ++
        orderFragment order_by order_by_default order_dir ++ ";" ∧
    appendFilters base condition order_by order_by_default order_dir
        Option.none offset =
      base ++ whereFragment condition ++
        orderFragment order_by order_by_default order_dir ++
        " LIMIT 10" ++
        (match offset with
         | Option.some o => " OFFSET " ++ Nat.repr o
         | Option.none => "") ++ ";" := by
  refine ⟨?_, ?_, ?_⟩ <;>
    rw [appendFilters_eq] <;>
    cases offset <;>
    simp [limitFragment, offsetFragment, String.append_assoc]

/-- C4: the rendered `ORDER BY` clause is fully resolved: the order
column is the caller's value when present, else the per-entity default
(priority for a task select, name for a project select); the direction
is the caller's value when present, else `DESC` exactly when the
resolved column is priority and `ASC` otherwise. -/
theorem c4_order_resolution :
    (∀ q : SelectTasksQuery,
      q.build_query_string =
        appendFilters
          ("SELECT " ++ q.cols.toString ++ " FROM " ++ Tables.tasks.toString)
          q.condition q.order_by OrderBy.priority q.order_dir q.limit
          q.offset) ∧
    (∀ q : SelectProjectsQuery,
      q.build_query_string =
        appendFilters
          ("SELECT " ++ q.cols.toString ++ " FROM " ++ Tables.projects.toString)
          q.condition q.order_by OrderBy.name q.order_dir q.limit
          q.offset) ∧
    (∀ base condition order_by order_by_default order_dir limit offset,
      appendFilters base condition order_by order_by_default order_dir
          limit offset =
        base ++ whereFragment condition ++
          (" ORDER BY " ++
            (resolveOrderBy order_by order_by_default).toString ++ " " ++
            (resolveOrderDir order_dir
              (resolveOrderBy order_by order_by_default)).toString) ++
          limitFragment limit ++ offsetFragment limit offset ++ ";") ∧
    (∀ ob d, resolveOrderBy (Option.some ob) d = ob) ∧
    (∀ d, resolveOrderBy Option.none d = d) ∧
    (∀ dir ob, resolveOrderDir (Option.some dir) ob = dir) ∧
    (∀ ob, resolveOrderDir Option.none ob =
      if ob = OrderBy.priority then OrderDir.desc else OrderDir.asc) := by
  refine ⟨fun q => rfl, fun q => rfl, ?_, fun ob d => rfl, fun d => rfl,
    fun dir ob => rfl, ?_⟩
  · intro base condition order_by order_by_default order_dir limit offset
    rw [appendFilters_eq, orderFragment]
  · intro ob
    cases ob <;> rfl

/-- C5 (divergence exhibit): the task update query's rendered statement
for setting `start_time` to NULL scoped by `id = 1` ends in two
semicolons, not the single semicolon of the specified literal protocol
text. -/
theorem c5_update_statement_double_semicolon :
    UpdateTaskQuery.fmtString
        { update := { name := .none, priority := .none, status := .none,
                      start_time := .null, end_time := .none,
                      repeat_ := .none, notes := .none },
          condition := Option.some "id = 1" } =
      "UPDATE tasks SET start_time = NULL WHERE id = 1;;" ∧
    UpdateTaskQuery.fmtString
        { update := { name := .none, priority := .none, status := .none,
                      start_time := .null, end_time := .none,
                      repeat_ := .none, notes := .none },
          condition := Option.some "id = 1" } ≠
      "UPDATE tasks SET start_time = NULL WHERE id = 1;" := by
  constructor
  · rfl
  · decide

/-- C7: rendering a row of update actions filters out exactly the
`None` (Untouched) entries, rendering `Some(value)` as
`column = 'value'` and `Null` as `column = NULL`, for every combination
of per-column actions. -/
theorem c7_update_actions_filter :
    (∀ u : UpdateTaskCols,
      u.fmtString =
        String.intercalate ","
          (((taskColsPairs u).filter (fun col => !col.2.is_none)).map
            (fun col => col.2.to_statment col.1))) ∧
    (∀ cols : List (String × UpdateAction String),
      UpdateCols.fmtString ⟨cols⟩ =
        String.intercalate ", "
          ((cols.filter (fun col => !col.2.is_none)).map
            (fun col => col.2.to_statment col.1))) ∧
    (∀ (col v : String),
      UpdateAction.to_statment (UpdateAction.some v) col =
        col ++ " = '" ++ v ++ "'") ∧
    (∀ col : String,
      UpdateAction.to_statment (UpdateAction.null : UpdateAction String)
        col = col ++ " = NULL") ∧
    (∀ (col : String) (T : Type) (_inst : ToString T),
      UpdateAction.to_statment (UpdateAction.none : UpdateAction T) col = "") := by
  refine ⟨?_, fun cols => rfl, fun col v => rfl, fun col => rfl,
    fun col T _inst => rfl⟩
  intro u
  rcases u with ⟨n, p, s, st, e, r, no⟩
  simp only [UpdateTaskCols.fmtString, taskColsPairs, push_action_eq,
    filter_map_statment_cons, List.filter_nil, List.map_nil,
    UpdateAction.is_none_map, UpdateAction.to_statment_map_repr,
    List.nil_append, List.append_nil, List.append_assoc]

/-- C1 (divergence exhibit): the round trip breaks at the select in the
code present in src/: `select_tasks_condition` with projection All and
the predicate `Equal { col: "id", value: 1 }` appends the condition
with no ` WHERE ` separator, rendering malformed statement text the
store rejects, so the select errors instead of yielding exactly one
Task.  The insertion side also diverges between the two present add
paths: the facade's column map carries the status integer code "0" as
the claim says, but the `AddTaskQuery` builder renders the status value
as the word 'incomplete'. -/
theorem c1_select_missing_where :
    select_tasks_condition_query QueryCols.all
        [(QueryConditions.Equal "id" "1", Option.none)]
        Option.none Option.none =
      "SELECT * FROM tasksid = 1 ORDER BY priority DESC;" ∧
    strContains
      (select_tasks_condition_query QueryCols.all
        [(QueryConditions.Equal "id" "1", Option.none)]
        Option.none Option.none) " WHERE " = false ∧
    AddTaskQuery.build_query_string
        { name := "Buy milk", priority := 3, start_time := Option.none,
          end_time := Option.none, repeat_ := Option.none,
          notes := Option.none } =
      "INSERT INTO tasks(name, priority, status) VALUES('Buy milk', '3', 'incomplete');" ∧
    rowGet (addTaskMap buyMilkArgs) "status" = Option.some "0" ∧
    ItemStatus.fromI64 0 = ItemStatus.incomplete :=
  ⟨rfl, rfl, rfl, rfl, rfl⟩

/-- C2: an update invocation in which every per-column action is
Untouched is rejected before a statement reaches the store, and the
assignment list such a statement would carry is indeed empty. -/
theorem c2_reject_all_untouched (condition : Option String)
    (u : UpdateTaskCols) (h : u.allNone = true) :
    Server.update_task condition u =
      Except.error "MisuseError: no update values provided" ∧
    u.fmtString = "" := by
  constructor
  · simp [Server.update_task, h]
  · rcases u with ⟨n, p, s, st, e, r, no⟩
    simp only [UpdateTaskCols.allNone, Bool.and_eq_true] at h
    obtain ⟨⟨⟨⟨⟨⟨h1, h2⟩, h3⟩, h4⟩, h5⟩, h6⟩, h7⟩ := h
    rw [show n = UpdateAction.none from UpdateAction.eq_none_of_is_none h1,
      show p = UpdateAction.none from UpdateAction.eq_none_of_is_none h2,
      show s = UpdateAction.none from UpdateAction.eq_none_of_is_none h3,
      show st = UpdateAction.none from UpdateAction.eq_none_of_is_none h4,
      show e = UpdateAction.none from UpdateAction.eq_none_of_is_none h5,
      show r = UpdateAction.none from UpdateAction.eq_none_of_is_none h6,
      show no = UpdateAction.none from UpdateAction.eq_none_of_is_none h7]
    rfl

/-- C2 witness: the all-Untouched update scoped by `id = 1` is rejected. -/
theorem c2_reject_all_untouched_witness :
    Server.update_task (Option.some "id = 1")
        { name := .none, priority := .none, status := .none,
          start_time := .none, end_time := .none, repeat_ := .none,
          notes := .none } =
      Except.error "MisuseError: no update values provided" ∧
    UpdateTaskCols.fmtString
        { name := .none, priority := .none, status := .none,
          start_time := .none, end_time := .none, repeat_ := .none,
          notes := .none } = "" :=
  c2_reject_all_untouched (Option.some "id = 1")
    { name := .none, priority := .none, status := .none,
      start_time := .none, end_time := .none, repeat_ := .none,
      notes := .none } rfl

set_option maxRecDepth 8192 in
/-- C6: a delete built with an absent predicate renders with no `WHERE`
clause (and with one when a predicate is present); the initialization
batch declares `ON DELETE CASCADE` and enables foreign-key enforcement;
executing the unconditional tasks deletion removes every tasks row and
leaves no assignment row referencing a deleted task identifier. -/
theorem c6_delete_all_cascade :
    (∀ t : Tables, deleteBuildQueryString t Option.none =
      "DELETE FROM " ++ t.toString ++ ";") ∧
    (∀ (t : Tables) (c : String), deleteBuildQueryString t (Option.some c) =
      "DELETE FROM " ++ t.toString ++ " WHERE " ++ c ++ ";") ∧
    strContains initSqlBatch "ON DELETE CASCADE" = true ∧
    strContains initSqlBatch "PRAGMA foreign_keys = ON" = true ∧
    (∀ db : DbFull,
      (dbDeleteTasks (fun _ => true) db).tasks = [] ∧
      (dbDeleteTasks (fun _ => true) db).assignments.filter
        (fun a => db.tasks.any (fun r => r.id == a.1)) = []) := by
  refine ⟨?_, ?_, ?_, ?_, ?_⟩
  · intro t
    simp [deleteBuildQueryString, String.append_assoc]
  · intro t c
    simp [deleteBuildQueryString, String.append_assoc]
  · rfl
  · rfl
  · intro db
    constructor
    · simp [dbDeleteTasks]
    · simp only [dbDeleteTasks, List.filter_filter]
      rw [List.filter_eq_nil_iff]
      intro a _
      simp

end Toado
